import Mathlib

/-!
Shallow embedding of the backtesting framework
(`src/backtesting/{tracker,signal,strategy,backtest}.py`).

Python floats are modelled by `ℚ`; a value that may be NaN (missing price,
undefined statistic, undefined day return) is modelled by `Option ℚ`, with
`none` standing for NaN.  Every comparison with a possible NaN follows
Python/NumPy semantics: any comparison against NaN is false.
-/

/-- An order directive returned by a strategy: either the string `'close'`
or a signed numeric trade size. -/
inductive OrderDirective where
  | close : OrderDirective
  | size (s : ℚ) : OrderDirective
deriving DecidableEq, Repr

/-- State of `Tracker` (tracker.py).  `std` is, as in the source, actually
the population variance (no square root is taken). -/
structure Tracker where
  prev_date : Option ℕ
  prev_price : Option ℚ
  day_return : Option ℚ
  n : ℕ
  price_window : List (Option ℚ)
  moving_average : Option ℚ
  std : Option ℚ
deriving DecidableEq, Repr

/-- `Tracker.__init__(self, n)`: prev_price = 0.0, day_return = 0.0,
empty window, moving_average = std = 0.0. -/
def Tracker.init (n : ℕ) : Tracker :=
  { prev_date := none
    prev_price := some 0
    day_return := some 0
    n := n
    price_window := []
    moving_average := some 0
    std := some 0 }

/-- `Tracker.__call__(self, date, price)`.  Appends the price; once the
window length exceeds `n` it `pop()`s (removes the LAST element, i.e. the
price just appended), then recomputes statistics over the remaining window
and updates `day_return`/`prev_price`/`prev_date`.  When the window does
not exceed `n`, nothing except the window changes. -/
def Tracker.call (t : Tracker) (date : ℕ) (price : Option ℚ) : Tracker :=
  let w := t.price_window ++ [price]
  if t.n < w.length then
    let w2 := w.dropLast
    let stats : Option ℚ × Option ℚ :=
      if w2.any (fun v => v.isNone) then (none, none)
      else
        let vals := w2.filterMap id
        let m := vals.sum / (w2.length : ℚ)
        (some m, some ((vals.map (fun v => (v - m) ^ 2)).sum / (w2.length : ℚ)))
    let dr : Option ℚ :=
      if t.prev_price = some 0 then some 0
      else
        match price, t.prev_price with
        | some p, some q => some (p / q - 1)
        | _, _ => none
    { t with
      price_window := w2
      moving_average := stats.1
      std := stats.2
      day_return := dr
      prev_price := price
      prev_date := some date }
  else
    { t with price_window := w }

/-- State of `StdDevPairSignal` (signal.py). -/
structure StdDevPairSignal where
  asset_a : String
  asset_b : String
  tracker : Tracker
  std_rise : ℚ
  std_drop : ℚ
  n_days : ℕ
deriving DecidableEq, Repr

/-- `StdDevPairSignal.__init__`. -/
def StdDevPairSignal.init (asset_a asset_b : String) (n_days : ℕ)
    (std_rise std_drop : ℚ) : StdDevPairSignal :=
  { asset_a := asset_a
    asset_b := asset_b
    tracker := Tracker.init n_days
    std_rise := std_rise
    std_drop := std_drop
    n_days := n_days }

/-- `StdDevPairSignal.__call__(self, index, price_args)`.  The price row is
abstracted to the pair of prices of `asset_a` and `asset_b` (`none` = NaN).
Returns `((asset_a, signal), updated state)`.  A comparison against a NaN
statistic is false, as in NumPy. -/
def StdDevPairSignal.call (s : StdDevPairSignal) (date : ℕ)
    (price_a price_b : Option ℚ) : (String × ℚ) × StdDevPairSignal :=
  match price_b, price_a, s.tracker.std with
  | some pb, some _, some _ =>
      let t := s.tracker.call date (some pb)
      let rise : Bool :=
        match t.std, t.day_return with
        | some v, some r => decide (v * s.std_rise < r)
        | _, _ => false
      let dropSig : Bool :=
        match t.std, t.day_return with
        | some v, some r => decide (r < -v * s.std_drop)
        | _, _ => false
      let signal : ℚ := if dropSig then -1 else if rise then 1 else 0
      ((s.asset_a, signal), { s with tracker := t })
  | _, _, _ => ((s.asset_a, 0), s)

/-- State of `FuturesStdPairStrategy` (strategy.py). -/
structure FuturesStdPairStrategy where
  stdsignal : StdDevPairSignal
  buy_size : ℚ
  short_size : ℚ
deriving DecidableEq, Repr

/-- `FuturesStdPairStrategy.__init__` with kwargs
`asset_a, asset_b, n_days, std_rise, std_drop, long_size, short_size`. -/
def FuturesStdPairStrategy.init (asset_a asset_b : String) (n_days : ℕ)
    (std_rise std_drop buy_size short_size : ℚ) : FuturesStdPairStrategy :=
  { stdsignal := StdDevPairSignal.init asset_a asset_b n_days std_rise std_drop
    buy_size := buy_size
    short_size := short_size }

/-- `FuturesStdPairStrategy.__call__`: signal +1 ⇒ buy order, −1 ⇒ short
order, otherwise the `'close'` directive. -/
def FuturesStdPairStrategy.call (st : FuturesStdPairStrategy) (date : ℕ)
    (price_a price_b : Option ℚ) :
    (String × OrderDirective) × FuturesStdPairStrategy :=
  let r := st.stdsignal.call date price_a price_b
  let asset := r.1.1
  let sig := r.1.2
  let st2 := { st with stdsignal := r.2 }
  if sig = 1 then ((asset, OrderDirective.size (st.buy_size * sig)), st2)
  else if sig = -1 then ((asset, OrderDirective.size (st.short_size * sig)), st2)
  else ((asset, OrderDirective.close), st2)

/-- Feed a list of daily price pairs to the strategy, collecting the emitted
order directives and the final strategy state. -/
def FuturesStdPairStrategy.runDays (st : FuturesStdPairStrategy)
    (days : List (Option ℚ × Option ℚ)) :
    List OrderDirective × FuturesStdPairStrategy :=
  match days with
  | [] => ([], st)
  | d :: rest =>
      let r := st.call 0 d.1 d.2
      let rec' := FuturesStdPairStrategy.runDays r.2 rest
      (r.1.2 :: rec'.1, rec'.2)

/-- The ledger state mutated once per day by the `Backtest.__init__` loop
(backtest.py lines 44–94), together with the configured transaction cost. -/
structure Ledger where
  initial_value : ℚ
  cash : ℚ
  position_value : ℚ
  position_size : ℚ
  prev_price : Option ℚ
  max_value : ℚ
  pnl : List ℚ
  drawdown : List ℚ
  t_cost : ℚ
deriving DecidableEq, Repr

/-- Ledger state right after `Backtest.__init__` initialisation, before the
first simulated day (backtest.py lines 44–53). -/
def Ledger.init (cash t_cost : ℚ) : Ledger :=
  { initial_value := cash
    cash := cash
    position_value := 0
    position_size := 0
    prev_price := none
    max_value := cash
    pnl := []
    drawdown := []
    t_cost := t_cost }

/-- backtest.py lines 62–65: the day return for a present price `p`; 0 when
the previous price is exactly 0 or is missing (NaN). -/
def Backtest.dayReturn (L : Ledger) (p : ℚ) : ℚ :=
  if L.prev_price = some 0 then 0
  else
    match L.prev_price with
    | some q => p / q - 1
    | none => 0

/-- backtest.py line 69: mark-to-market revaluation
`position_value += position_value * day_return * position_size`. -/
def Backtest.mtm (L : Ledger) (p : ℚ) : ℚ :=
  L.position_value + L.position_value * Backtest.dayReturn L p * L.position_size

/-- One iteration of the `Backtest.__init__` day loop (lines 55–94) for a
single day, given the asset price looked up from the row (`none` = NaN) and
the order directive the strategy returned for that day. -/
def Backtest.step (L : Ledger) (price : Option ℚ) (order : OrderDirective) :
    Ledger :=
  match price with
  | none =>
      { L with
        pnl := L.pnl ++ [L.position_value + L.cash]
        drawdown := L.drawdown ++ [0] }
  | some p =>
      let pv1 := Backtest.mtm L p
      let settled : ℚ × ℚ × ℚ :=
        match order with
        | OrderDirective.close =>
            (L.cash + pv1 - L.t_cost, L.position_size, 0)
        | OrderDirective.size s =>
            if |s| * p + L.t_cost ≤ L.cash then
              (L.cash - (|s| * p - L.t_cost), L.position_size + s, pv1 + s * p)
            else
              (L.cash, L.position_size, pv1)
      let cash2 := settled.1
      let size2 := settled.2.1
      let pv2 := settled.2.2
      let total := pv2 + cash2
      let profit := total - L.initial_value
      let mv := max L.max_value profit
      { L with
        prev_price := some p
        cash := cash2
        position_size := size2
        position_value := pv2
        max_value := mv
        pnl := L.pnl ++ [total]
        drawdown := L.drawdown ++ [(mv - total) / mv] }

/-- The whole day loop over a list of (price, order) days. -/
def Backtest.run (L : Ledger) (days : List (Option ℚ × OrderDirective)) :
    Ledger :=
  days.foldl (fun L d => Backtest.step L d.1 d.2) L

/-- The configuration error raised at construction time for an unrecognized
strategy name (backtest.py line 41, `raise KeyError(...)`). -/
inductive ConfigError where
  | unrecognizedStrategy (name : String) : ConfigError
deriving DecidableEq, Repr

/-- Python `str.lower()`, modelled characterwise. -/
def strLower (s : String) : String := String.mk (s.data.map Char.toLower)

/-- backtest.py lines 36–41: an already-built `Strategy` instance is kept;
a string is lowercased and matched against the two recognized names, any
other string raises the configuration error. -/
def resolveStrategy (arg : FuturesStdPairStrategy ⊕ String)
    (kwStrategy : FuturesStdPairStrategy) :
    Except ConfigError FuturesStdPairStrategy :=
  match arg with
  | Sum.inl s => Except.ok s
  | Sum.inr name =>
      if strLower name = "future_pairs_strategy" ∨
         strLower name = "futurepairsstrategy" then
        Except.ok kwStrategy
      else
        Except.error (ConfigError.unrecognizedStrategy name)

/-- The day loop of `Backtest.__init__` driven by an actual strategy
instance: each day the strategy is asked first, the returned asset is
always `asset_a`, so the traded price is the day's `asset_a` price. -/
def Backtest.runFull (st : FuturesStdPairStrategy) (L : Ledger)
    (days : List (Option ℚ × Option ℚ)) : FuturesStdPairStrategy × Ledger :=
  days.foldl
    (fun acc d =>
      let r := acc.1.call 0 d.1 d.2
      (r.2, Backtest.step acc.2 d.1 r.1.2))
    (st, L)

/-- `Backtest.__init__`: resolve the strategy argument (raising the
configuration error for an unrecognized name, before any day is
processed), then run the whole simulation. -/
def Backtest.init (arg : FuturesStdPairStrategy ⊕ String)
    (kwStrategy : FuturesStdPairStrategy) (cash t_cost : ℚ)
    (days : List (Option ℚ × Option ℚ)) : Except ConfigError Ledger :=
  match resolveStrategy arg kwStrategy with
  | Except.error e => Except.error e
  | Except.ok st => Except.ok (Backtest.runFull st (Ledger.init cash t_cost) days).2

/-! ## Claim C1 -/

/-- C1 counterexample: starting from initial cash 1000000 and transaction
cost 1/10, buying size 1 at price 1 and then closing at price 1 reaches a
settled ledger state with `positionValue = 0` but `positionSize = 1 ≠ 0`,
so a close does not zero both fields and the claimed biconditional fails
on a reachable state. -/
theorem claim_C1_counterexample :
    (Backtest.run (Ledger.init 1000000 (1/10))
      [(some 1, OrderDirective.size 1), (some 1, OrderDirective.close)]).position_value = 0 ∧
    (Backtest.run (Ledger.init 1000000 (1/10))
      [(some 1, OrderDirective.size 1), (some 1, OrderDirective.close)]).position_size ≠ 0 := by
  norm_num [Backtest.run, Backtest.step, Backtest.mtm, Backtest.dayReturn, Ledger.init]

/-- C1 (amended): applying a `'close'` order zeroes `positionValue` but
leaves `positionSize` unchanged, so `positionValue = 0` holds after a
close while `positionSize` keeps its previous value. -/
theorem claim_C1_close_zeroes_value_only (L : Ledger) (p : ℚ) :
    (Backtest.step L (some p) OrderDirective.close).position_value = 0 ∧
    (Backtest.step L (some p) OrderDirective.close).position_size = L.position_size := by
  simp [Backtest.step]

/-! ## Claim C4 -/

/-- C4: on a day with a present price, a `'close'` order yields
`cash_after = cash_before + V - C` where `V` is the marked-to-market
position value and `C` the transaction cost, and `positionValue_after = 0`. -/
theorem claim_C4_close_settlement (L : Ledger) (p : ℚ) :
    (Backtest.step L (some p) OrderDirective.close).cash =
      L.cash + Backtest.mtm L p - L.t_cost ∧
    (Backtest.step L (some p) OrderDirective.close).position_value = 0 := by
  simp [Backtest.step]

/-! ## Claim C3 -/

/-- C3: on a day with a present price, a numeric order of size `S` at price
`P` with `cash_before ≥ |S|*P + C` settles as `cash_after = cash_before -
|S|*P + C`, `positionSize_after = positionSize_before + S`, and
`positionValue_after` is the marked-to-market value plus `S*P`. -/
theorem claim_C3_open_order_settlement (L : Ledger) (p s : ℚ)
    (h : |s| * p + L.t_cost ≤ L.cash) :
    (Backtest.step L (some p) (OrderDirective.size s)).cash =
      L.cash - |s| * p + L.t_cost ∧
    (Backtest.step L (some p) (OrderDirective.size s)).position_size =
      L.position_size + s ∧
    (Backtest.step L (some p) (OrderDirective.size s)).position_value =
      Backtest.mtm L p + s * p := by
  simp only [Backtest.step, if_pos h]
  refine ⟨by ring, trivial, trivial⟩

/-- C3 witness at a concrete input: price 2, size 3, cash 1000000,
transaction cost 1/10. -/
theorem claim_C3_witness :
    |(3:ℚ)| * 2 + (Ledger.init 1000000 (1/10)).t_cost ≤ (Ledger.init 1000000 (1/10)).cash ∧
    (Backtest.step (Ledger.init 1000000 (1/10)) (some 2) (OrderDirective.size 3)).cash =
      (Ledger.init 1000000 (1/10)).cash - |(3:ℚ)| * 2 + (Ledger.init 1000000 (1/10)).t_cost :=
  ⟨by norm_num [Ledger.init],
   (claim_C3_open_order_settlement (Ledger.init 1000000 (1/10)) 2 3
      (by norm_num [Ledger.init])).1⟩

/-! ## Claim C8 -/

/-- C8: on a day with a present price, a numeric order of size `S` at price
`P` with insufficient cash (`cash_before < |S|*P + C`) leaves cash and
position size untouched, and the position value equals the marked-to-market
value alone: the trade is silently skipped. -/
theorem claim_C8_insufficient_cash (L : Ledger) (p s : ℚ)
    (h : L.cash < |s| * p + L.t_cost) :
    (Backtest.step L (some p) (OrderDirective.size s)).cash = L.cash ∧
    (Backtest.step L (some p) (OrderDirective.size s)).position_size = L.position_size ∧
    (Backtest.step L (some p) (OrderDirective.size s)).position_value = Backtest.mtm L p := by
  simp only [Backtest.step, if_neg (not_le.mpr h)]
  exact ⟨trivial, trivial, trivial⟩

/-- C8 witness at a concrete input: cash 1, price 2, size 3, cost 1/10. -/
theorem claim_C8_witness :
    (Ledger.init 1 (1/10)).cash < |(3:ℚ)| * 2 + (Ledger.init 1 (1/10)).t_cost ∧
    (Backtest.step (Ledger.init 1 (1/10)) (some 2) (OrderDirective.size 3)).cash =
      (Ledger.init 1 (1/10)).cash :=
  ⟨by norm_num [Ledger.init],
   (claim_C8_insufficient_cash (Ledger.init 1 (1/10)) 2 3 (by norm_num [Ledger.init])).1⟩

/-! ## Claim C10 -/

/-- C10: on a day with a present price where the order is `'close'` and no
position is open (`positionSize = 0`, `positionValue = 0`), the engine
still debits the transaction cost: cash drops by exactly `t_cost`, hence
strictly decreases whenever `t_cost > 0`, while position size and value
stay 0. -/
theorem claim_C10_flat_close_cost (L : Ledger) (p : ℚ)
    (hpv : L.position_value = 0) (hps : L.position_size = 0)
    (hc : 0 < L.t_cost) :
    (Backtest.step L (some p) OrderDirective.close).cash = L.cash - L.t_cost ∧
    (Backtest.step L (some p) OrderDirective.close).cash < L.cash ∧
    (Backtest.step L (some p) OrderDirective.close).position_size = 0 ∧
    (Backtest.step L (some p) OrderDirective.close).position_value = 0 := by
  have hm : Backtest.mtm L p = 0 := by simp [Backtest.mtm, hpv]
  simp only [Backtest.step, hm, hps]
  refine ⟨by ring, by linarith, trivial, trivial⟩

/-- C10 witness at a concrete input: fresh ledger with cash 10 and
transaction cost 1/10, close order at price 1. -/
theorem claim_C10_witness :
    (Ledger.init 10 (1/10)).position_value = 0 ∧
    (Ledger.init 10 (1/10)).position_size = 0 ∧
    0 < (Ledger.init 10 (1/10)).t_cost ∧
    (Backtest.step (Ledger.init 10 (1/10)) (some 1) OrderDirective.close).cash <
      (Ledger.init 10 (1/10)).cash :=
  ⟨rfl, rfl, by norm_num [Ledger.init],
   (claim_C10_flat_close_cost (Ledger.init 10 (1/10)) 1 rfl rfl
      (by norm_num [Ledger.init])).2.1⟩

/-! ## Claim C2 -/

/-- C2: evaluation of the tracker at the failing input (capacity 2, prices
1, 2, 3).  `pop()` removes the just-appended newest price, so after the
third observation the stored window is still the FIRST two prices
`[1, 2]` with mean 3/2 and population variance 1/4 — not the two
most-recent prices `[2, 3]` with mean 5/2 that eviction of the oldest
would give. -/
theorem claim_C2_eviction_evaluation :
    ((((Tracker.init 2).call 0 (some 1)).call 1 (some 2)).call 2 (some 3)).price_window
        = [some 1, some 2] ∧
    ((((Tracker.init 2).call 0 (some 1)).call 1 (some 2)).call 2 (some 3)).moving_average
        = some (3/2) ∧
    ((((Tracker.init 2).call 0 (some 1)).call 1 (some 2)).call 2 (some 3)).std
        = some (1/4) := by
  norm_num [Tracker.call, Tracker.init, List.filterMap]

/-! ## Claim C5 -/

/-- C5 counterexample: with initial cash 10 and transaction cost 1/10,
buying size 1 at price 1 on the first day yields `maxValueSeen = 10 > 0`
at settlement while the appended drawdown is −1/100, which is not in
`[0, 1]`. -/
theorem claim_C5_counterexample :
    0 < (Backtest.run (Ledger.init 10 (1/10)) [(some 1, OrderDirective.size 1)]).max_value ∧
    (Backtest.run (Ledger.init 10 (1/10)) [(some 1, OrderDirective.size 1)]).drawdown
      = [-(1/100)] ∧
    ¬ (0 ≤ (-(1/100) : ℚ)) := by
  norm_num [Backtest.run, Backtest.step, Backtest.mtm, Backtest.dayReturn, Ledger.init]

/-- C5 (amended): on a day with a present price the appended drawdown is
at most 1 whenever `maxValueSeen > 0` and the settled total value is
nonnegative (it can be negative when the total value exceeds
`maxValueSeen`); on a day with a missing price the appended drawdown
is 0. -/
theorem claim_C5_drawdown_bounds (L : Ledger) (p : ℚ) (order : OrderDirective) :
    (0 < (Backtest.step L (some p) order).max_value →
      0 ≤ (Backtest.step L (some p) order).position_value +
          (Backtest.step L (some p) order).cash →
      ∃ d, (Backtest.step L (some p) order).drawdown = L.drawdown ++ [d] ∧ d ≤ 1) ∧
    (Backtest.step L none order).drawdown = L.drawdown ++ [0] := by
  constructor
  · simp only [Backtest.step]
    intro h1 h2
    exact ⟨_, rfl, by rw [div_le_one h1]; linarith⟩
  · simp [Backtest.step]

/-- C5 witness at a concrete input: a close order at price 1 on a fresh
ledger with cash 10 and transaction cost 1/10. -/
theorem claim_C5_witness :
    0 < (Backtest.step (Ledger.init 10 (1/10)) (some 1) OrderDirective.close).max_value ∧
    0 ≤ (Backtest.step (Ledger.init 10 (1/10)) (some 1) OrderDirective.close).position_value +
        (Backtest.step (Ledger.init 10 (1/10)) (some 1) OrderDirective.close).cash ∧
    ∃ d, (Backtest.step (Ledger.init 10 (1/10)) (some 1) OrderDirective.close).drawdown =
        (Ledger.init 10 (1/10)).drawdown ++ [d] ∧ d ≤ 1 := by
  have h1 : 0 < (Backtest.step (Ledger.init 10 (1/10)) (some 1)
      OrderDirective.close).max_value := by
    norm_num [Backtest.step, Backtest.mtm, Backtest.dayReturn, Ledger.init]
  have h2 : 0 ≤ (Backtest.step (Ledger.init 10 (1/10)) (some 1)
        OrderDirective.close).position_value +
      (Backtest.step (Ledger.init 10 (1/10)) (some 1) OrderDirective.close).cash := by
    norm_num [Backtest.step, Backtest.mtm, Backtest.dayReturn, Ledger.init]
  exact ⟨h1, h2, (claim_C5_drawdown_bounds (Ledger.init 10 (1/10)) 1
    OrderDirective.close).1 h1 h2⟩

/-! ## Claim C6 -/

/-- Helper: each day's step appends exactly one entry to the PnL and
drawdown series, so the run over any day list grows both series by the
number of days. -/
theorem run_series_lengths (days : List (Option ℚ × OrderDirective)) :
    ∀ L : Ledger,
      (Backtest.run L days).pnl.length = L.pnl.length + days.length ∧
      (Backtest.run L days).drawdown.length = L.drawdown.length + days.length := by
  induction days with
  | nil => intro L; simp [Backtest.run]
  | cons d rest ih =>
      intro L
      have hstep : (Backtest.step L d.1 d.2).pnl.length = L.pnl.length + 1 ∧
          (Backtest.step L d.1 d.2).drawdown.length = L.drawdown.length + 1 := by
        cases hd : d.1 <;> simp [Backtest.step]
      have hrun : Backtest.run L (d :: rest) = Backtest.run (Backtest.step L d.1 d.2) rest := by
        simp [Backtest.run]
      rw [hrun]
      have := ih (Backtest.step L d.1 d.2)
      constructor <;> simp [this.1, this.2, hstep.1, hstep.2] <;> omega

/-- C6: after processing any prefix of the price table from a fresh
ledger, the PnL and drawdown series each have exactly one entry per day
processed; a day with a missing price appends the carried-forward
`positionValue + cash` to the PnL series and 0 to the drawdown series. -/
theorem claim_C6_series_lengths (cash t_cost : ℚ)
    (days : List (Option ℚ × OrderDirective)) :
    (Backtest.run (Ledger.init cash t_cost) days).pnl.length = days.length ∧
    (Backtest.run (Ledger.init cash t_cost) days).drawdown.length = days.length ∧
    ∀ (L : Ledger) (o : OrderDirective),
      (Backtest.step L none o).pnl = L.pnl ++ [L.position_value + L.cash] ∧
      (Backtest.step L none o).drawdown = L.drawdown ++ [0] := by
  refine ⟨?_, ?_, ?_⟩
  · have := run_series_lengths days (Ledger.init cash t_cost)
    simpa [Ledger.init] using this.1
  · have := run_series_lengths days (Ledger.init cash t_cost)
    simpa [Ledger.init] using this.2
  · intro L o
    simp [Backtest.step]

/-! ## Claim C7 -/

/-- Helper: while the window has not yet exceeded capacity, a tracker
update only appends the price; statistics, day return and previous price
are untouched (tracker.py lines 45–46: the whole statistics block sits
under `if len(window) > n`). -/
theorem Tracker.call_below_capacity (t : Tracker) (date : ℕ) (p : Option ℚ)
    (h : t.price_window.length + 1 ≤ t.n) :
    t.call date p = { t with price_window := t.price_window ++ [p] } := by
  simp only [Tracker.call]
  rw [if_neg]
  simp only [List.length_append, List.length_singleton]
  omega

/-- Helper: with both prices present, variance still at its initial 0 and
day return still 0, the signal call updates the tracker window and emits
the neutral signal 0. -/
theorem StdDevPairSignal.call_warm (s : StdDevPairSignal) (date : ℕ) (pa pb : ℚ)
    (hstd : s.tracker.std = some 0)
    (hdr : s.tracker.day_return = some 0)
    (h : s.tracker.price_window.length + 1 ≤ s.tracker.n) :
    s.call date (some pa) (some pb) =
      ((s.asset_a, 0),
       { s with tracker :=
          { s.tracker with price_window := s.tracker.price_window ++ [some pb] } }) := by
  simp only [StdDevPairSignal.call, hstd, Tracker.call_below_capacity _ _ _ h]
  simp [hstd, hdr]

/-- Helper: under the same warm-up conditions the strategy emits the
`'close'` directive. -/
theorem FuturesStdPairStrategy.strategy_warm (st : FuturesStdPairStrategy) (date : ℕ)
    (pa pb : ℚ)
    (hstd : st.stdsignal.tracker.std = some 0)
    (hdr : st.stdsignal.tracker.day_return = some 0)
    (h : st.stdsignal.tracker.price_window.length + 1 ≤ st.stdsignal.tracker.n) :
    st.call date (some pa) (some pb) =
      ((st.stdsignal.asset_a, OrderDirective.close),
       { st with stdsignal := { st.stdsignal with tracker :=
          { st.stdsignal.tracker with
            price_window := st.stdsignal.tracker.price_window ++ [some pb] } } }) := by
  simp only [FuturesStdPairStrategy.call, StdDevPairSignal.call_warm _ _ _ _ hstd hdr h]
  norm_num

/-- Helper: feeding any sequence of present prices that keeps the window
within capacity leaves mean, variance and day return at their initial 0
and makes every emitted order `'close'`. -/
theorem FuturesStdPairStrategy.runDays_warm (ps : List (ℚ × ℚ)) :
    ∀ st : FuturesStdPairStrategy,
      st.stdsignal.tracker.moving_average = some 0 →
      st.stdsignal.tracker.std = some 0 →
      st.stdsignal.tracker.day_return = some 0 →
      st.stdsignal.tracker.price_window.length + ps.length ≤ st.stdsignal.tracker.n →
      (∀ d ∈ (st.runDays (ps.map fun q => (some q.1, some q.2))).1,
        d = OrderDirective.close) ∧
      (st.runDays (ps.map fun q => (some q.1, some q.2))).2.stdsignal.tracker.moving_average
        = some 0 ∧
      (st.runDays (ps.map fun q => (some q.1, some q.2))).2.stdsignal.tracker.std = some 0 ∧
      (st.runDays (ps.map fun q => (some q.1, some q.2))).2.stdsignal.tracker.day_return
        = some 0 := by
  induction ps with
  | nil =>
      intro st hma hstd hdr hlen
      simp [FuturesStdPairStrategy.runDays, hma, hstd, hdr]
  | cons q rest ih =>
      intro st hma hstd hdr hlen
      have hlen1 : st.stdsignal.tracker.price_window.length + 1 ≤ st.stdsignal.tracker.n := by
        simp at hlen; omega
      rw [List.map_cons]
      simp only [FuturesStdPairStrategy.runDays,
        FuturesStdPairStrategy.strategy_warm st 0 q.1 q.2 hstd hdr hlen1]
      set st2 : FuturesStdPairStrategy :=
        { st with stdsignal := { st.stdsignal with tracker :=
            { st.stdsignal.tracker with
              price_window := st.stdsignal.tracker.price_window ++ [some q.2] } } } with hst2
      have h2 := ih st2 (by simp [hst2, hma]) (by simp [hst2, hstd]) (by simp [hst2, hdr])
        (by simp [hst2]; simp at hlen; omega)
      refine ⟨?_, h2.2.1, h2.2.2.1, h2.2.2.2⟩
      intro d hd
      simp only [List.mem_cons] at hd
      rcases hd with rfl | hd
      · rfl
      · exact h2.1 d hd

/-- C7 counterexample: one present observation fed to the fresh pipeline
with window capacity 2 leaves the tracker's mean and variance at `some 0`
— they are NOT `none` (the embedding of NaN) — while the emitted order is
indeed `'close'`.  This refutes the claim that mean and variance are NaN
before the window is full. -/
theorem claim_C7_counterexample :
    ((FuturesStdPairStrategy.init "A" "B" 2 (1/2) (1/2) 10 10).runDays
        [(some 1, some 1)]).1 = [OrderDirective.close] ∧
    ((FuturesStdPairStrategy.init "A" "B" 2 (1/2) (1/2) 10 10).runDays
        [(some 1, some 1)]).2.stdsignal.tracker.moving_average = some 0 ∧
    ((FuturesStdPairStrategy.init "A" "B" 2 (1/2) (1/2) 10 10).runDays
        [(some 1, some 1)]).2.stdsignal.tracker.std = some 0 ∧
    ((FuturesStdPairStrategy.init "A" "B" 2 (1/2) (1/2) 10 10).runDays
        [(some 1, some 1)]).2.stdsignal.tracker.moving_average ≠ none ∧
    ((FuturesStdPairStrategy.init "A" "B" 2 (1/2) (1/2) 10 10).runDays
        [(some 1, some 1)]).2.stdsignal.tracker.std ≠ none := by
  norm_num [FuturesStdPairStrategy.runDays, FuturesStdPairStrategy.call,
    FuturesStdPairStrategy.init, StdDevPairSignal.call, StdDevPairSignal.init,
    Tracker.call, Tracker.init]
  all_goals exact Option.some_ne_none 0

/-- C7 (amended): for every sequence of at most N present observations fed
to a fresh strategy pipeline, the tracker's mean and variance remain at
their initialized value 0.0 (not NaN), and the strategy returns the
close/no-op order on each of those days. -/
theorem claim_C7_warmup (asset_a asset_b : String) (n : ℕ)
    (std_rise std_drop buy_size short_size : ℚ) (ps : List (ℚ × ℚ))
    (h : ps.length ≤ n) :
    (∀ d ∈ ((FuturesStdPairStrategy.init asset_a asset_b n std_rise std_drop
        buy_size short_size).runDays (ps.map fun q => (some q.1, some q.2))).1,
      d = OrderDirective.close) ∧
    ((FuturesStdPairStrategy.init asset_a asset_b n std_rise std_drop
        buy_size short_size).runDays
        (ps.map fun q => (some q.1, some q.2))).2.stdsignal.tracker.moving_average
      = some 0 ∧
    ((FuturesStdPairStrategy.init asset_a asset_b n std_rise std_drop
        buy_size short_size).runDays
        (ps.map fun q => (some q.1, some q.2))).2.stdsignal.tracker.std = some 0 := by
  have := FuturesStdPairStrategy.runDays_warm ps
    (FuturesStdPairStrategy.init asset_a asset_b n std_rise std_drop buy_size short_size)
    (by simp [FuturesStdPairStrategy.init, StdDevPairSignal.init, Tracker.init])
    (by simp [FuturesStdPairStrategy.init, StdDevPairSignal.init, Tracker.init])
    (by simp [FuturesStdPairStrategy.init, StdDevPairSignal.init, Tracker.init])
    (by simpa [FuturesStdPairStrategy.init, StdDevPairSignal.init, Tracker.init] using h)
  exact ⟨this.1, this.2.1, this.2.2.1⟩

/-- C7 witness at a concrete input: one observation, capacity 2. -/
theorem claim_C7_witness :
    ([((1:ℚ), (1:ℚ))].length ≤ 2) ∧
    (∀ d ∈ ((FuturesStdPairStrategy.init "A" "B" 2 (1/2) (1/2) 10 10).runDays
        ([((1:ℚ), (1:ℚ))].map fun q => (some q.1, some q.2))).1,
      d = OrderDirective.close) ∧
    ((FuturesStdPairStrategy.init "A" "B" 2 (1/2) (1/2) 10 10).runDays
        ([((1:ℚ), (1:ℚ))].map fun q => (some q.1, some q.2))).2.stdsignal.tracker.std
      = some 0 :=
  ⟨by norm_num,
   (claim_C7_warmup "A" "B" 2 (1/2) (1/2) 10 10 [(1, 1)] (by norm_num)).1,
   (claim_C7_warmup "A" "B" 2 (1/2) (1/2) 10 10 [(1, 1)] (by norm_num)).2.2⟩

/-! ## Claim C9 -/

/-- C9: constructing the engine with a string whose lowercase form is not
one of the two recognized strategy names fails immediately with the
configuration error carrying that name, for every dataset (so before any
simulation day is processed); constructing with an already-built strategy
instance, or with a recognized name, produces a result and raises no
error. -/
theorem claim_C9_strategy_resolution (arg : FuturesStdPairStrategy ⊕ String)
    (kw : FuturesStdPairStrategy) (cash t_cost : ℚ)
    (days : List (Option ℚ × Option ℚ)) :
    (∀ name, arg = Sum.inr name →
        strLower name ≠ "future_pairs_strategy" →
        strLower name ≠ "futurepairsstrategy" →
        Backtest.init arg kw cash t_cost days =
          Except.error (ConfigError.unrecognizedStrategy name)) ∧
    (∀ s, arg = Sum.inl s →
        ∃ R, Backtest.init arg kw cash t_cost days = Except.ok R) ∧
    (∀ name, arg = Sum.inr name →
        (strLower name = "future_pairs_strategy" ∨
         strLower name = "futurepairsstrategy") →
        ∃ R, Backtest.init arg kw cash t_cost days = Except.ok R) := by
  refine ⟨?_, ?_, ?_⟩
  · rintro name rfl h1 h2
    simp [Backtest.init, resolveStrategy, h1, h2]
  · rintro s rfl
    exact ⟨_, rfl⟩
  · rintro name rfl h
    simp [Backtest.init, resolveStrategy, h]

/-- C9 witness at a concrete input: the unrecognized name is rejected. -/
theorem claim_C9_witness :
    strLower "foo" ≠ "future_pairs_strategy" ∧
    strLower "foo" ≠ "futurepairsstrategy" ∧
    Backtest.init (Sum.inr "foo") (FuturesStdPairStrategy.init "A" "B" 2 1 1 10 10)
        1000000 (1/10) [] =
      Except.error (ConfigError.unrecognizedStrategy "foo") :=
  ⟨by decide, by decide,
   (claim_C9_strategy_resolution (Sum.inr "foo")
      (FuturesStdPairStrategy.init "A" "B" 2 1 1 10 10) 1000000 (1/10) []).1
     "foo" rfl (by decide) (by decide)⟩
